import Mathlib

/-!
Shallow embedding of the CleverCSS preprocessor (`src/tests/clevercss.py`)
in Lean 4: the expression value model and evaluator, the variable-resolution
machinery with its circular-dependency sentinel, the expression parser over
token sequences, the line scanner with block-comment handling, and the
engine's evaluation-context construction.  Python floats are modelled as
exact rationals; Python-level crashes (TypeError, NameError) that the source
can raise are modelled as explicit error variants.
-/

/-- Errors of the embedded program.  `parser` models `ParserError(lineno,
message)`, `eval` models `EvalException(lineno, message)`; `typeError` and
`nameError` model Python-level crashes that escape the two declared error
classes; `fuel` is a modelling artifact standing for Python's recursion
limit and is never reached in any theorem below. -/
inductive PyErr where
  | parser (lineno : Option Nat) (msg : String)
  | eval (lineno : Option Nat) (msg : String)
  | typeError (msg : String)
  | nameError (msg : String)
  | fuel
deriving DecidableEq

/-- Python 2 `int()` on a float: truncation toward zero. -/
def pyInt (q : ℚ) : ℤ :=
  if 0 ≤ q then ⌊q⌋ else ⌈q⌉

/-- Python 2 `round(x)` (half away from zero), as a rational. -/
def pyRound0 (q : ℚ) : ℚ :=
  if 0 ≤ q then (⌊q + 1/2⌋ : ℤ) else (⌈q - 1/2⌉ : ℤ)

/-- Python 2 `int(round(x))`: round half away from zero to an integer. -/
def pyRoundInt (q : ℚ) : ℤ :=
  if 0 ≤ q then ⌊q + 1/2⌋ else ⌈q - 1/2⌉

/-- Python float `%`: `a - b * floor(a / b)`, the result taking the
divisor's sign.  Callers guard `b = 0` themselves (ZeroDivisionError). -/
def pyMod (a b : ℚ) : ℚ :=
  a - b * ⌊a / b⌋

/-- Python float `% 1.0`: the fractional part in `[0, 1)`. -/
def pyFract (q : ℚ) : ℚ :=
  q - ⌊q⌋

/-- The `_conv` table: per family, each unit's factor relative to the
family's reference unit (`mm`, `ms`, `Hz`).  Python's literals `25.4`,
`25.4 / 72` and `25.4 / 6` are modelled as exact rationals. -/
def convFactor : String → String → Option ℚ
  | "length", "mm" => some 1
  | "length", "cm" => some 10
  | "length", "in" => some (127/5)
  | "length", "pt" => some (127/360)
  | "length", "pc" => some (127/30)
  | "time", "ms" => some 1
  | "time", "s" => some 1000
  | "freq", "Hz" => some 1
  | "freq", "kHz" => some 1000
  | _, _ => none

/-- The `_conv_mapping` dict: unit to its convertible family, when any. -/
def convMapping : String → Option String
  | "mm" => some "length"
  | "cm" => some "length"
  | "in" => some "length"
  | "pt" => some "length"
  | "pc" => some "length"
  | "ms" => some "time"
  | "s" => some "time"
  | "Hz" => some "freq"
  | "kHz" => some "freq"
  | _ => none

/-- Expression-tree and runtime-value nodes.  As in the source, literal
nodes double as runtime values (`Number`, `Value`, `Color`, `String`,
`URL`) and evaluate to themselves; `failingVar` is the `FailingVar`
sentinel that `Var.evaluate` swaps into the context while resolving. -/
inductive Expr where
  | num (value : ℚ) (lineno : Option Nat)
  | val (value : ℚ) (unit : String) (lineno : Option Nat)
  | color (channels : ℤ × ℤ × ℤ) (fromName : Bool) (lineno : Option Nat)
  | str (value : String) (lineno : Option Nat)
  | url (value : String) (lineno : Option Nat)
  | var (name : String) (lineno : Option Nat)
  | failingVar (name : String) (lineno : Option Nat)
  | rgb (args : List Expr) (lineno : Option Nat)
  | add (left right : Expr) (lineno : Option Nat)
  | sub (left right : Expr) (lineno : Option Nat)
  | mul (left right : Expr) (lineno : Option Nat)
  | div (left right : Expr) (lineno : Option Nat)
  | mod (left right : Expr) (lineno : Option Nat)
  | neg (node : Expr) (lineno : Option Nat)
  | call (node : Expr) (method : String) (args : List Expr) (lineno : Option Nat)
  | concat (nodes : List Expr) (lineno : Option Nat)
  | list (items : List Expr) (lineno : Option Nat)

/-- Line number stored on a node (every Python `Expr` carries `lineno`). -/
def Expr.lineno : Expr → Option Nat
  | .num _ ln => ln
  | .val _ _ ln => ln
  | .color _ _ ln => ln
  | .str _ ln => ln
  | .url _ ln => ln
  | .var _ ln => ln
  | .failingVar _ ln => ln
  | .rgb _ ln => ln
  | .add _ _ ln => ln
  | .sub _ _ ln => ln
  | .mul _ _ ln => ln
  | .div _ _ ln => ln
  | .mod _ _ ln => ln
  | .neg _ ln => ln
  | .call _ _ _ ln => ln
  | .concat _ ln => ln
  | .list _ ln => ln

/-- The `name` attribute used in error messages.  On `Var` the instance
attribute `self.name = name` shadows the class attribute, so a variable
reference reports its variable name; the remaining non-literal nodes keep
the base-class value "expression". -/
def Expr.pyName : Expr → String
  | .num _ _ => "number"
  | .val _ _ _ => "value"
  | .color _ _ _ => "color"
  | .str _ _ => "string"
  | .url _ _ => "URL"
  | .var n _ => n
  | .concat _ _ => "concatenated"
  | .list _ _ => "list"
  | _ => "expression"

/-- Evaluation context: insertion-ordered mapping from variable name to
expression (a Python dict restricted to the operations the source uses). -/
abbrev Ctx := List (String × Expr)

def ctxLookup (ctx : Ctx) (k : String) : Option Expr :=
  match ctx with
  | [] => none
  | (k2, v) :: rest => if k2 = k then some v else ctxLookup rest k

/-- Assignment `d[k] = v`: replace in place when present, else append. -/
def ctxSet (ctx : Ctx) (k : String) (v : Expr) : Ctx :=
  match ctx with
  | [] => [(k, v)]
  | (k2, v2) :: rest =>
      if k2 = k then (k2, v) :: rest else (k2, v2) :: ctxSet rest k v

/-- Python `dict.update`: assign every pair of `upd` into `base` in order. -/
def dictUpdate (base upd : Ctx) : Ctx :=
  upd.foldl (fun c kv => ctxSet c kv.1 kv.2) base

/-- Whitespace as Python's `str.strip` family sees it (ASCII subset). -/
def isPyWS (c : Char) : Bool :=
  c = ' ' ∨ c = '\t' ∨ c = '\n' ∨ c = '\x0d' ∨ c = '\x0b' ∨ c = '\x0c'

/-- Python `str.rstrip()`. -/
def pyRstrip (s : String) : String :=
  ((s.data.reverse.dropWhile isPyWS).reverse).asString

/-- Python `str.lstrip()`. -/
def pyLstrip (s : String) : String :=
  (s.data.dropWhile isPyWS).asString

/-- Python `str.strip()`. -/
def pyStrip (s : String) : String :=
  pyLstrip (pyRstrip s)

/-- Whether `not line.strip()` holds: the string is empty or whitespace. -/
def isBlankLine (s : String) : Bool :=
  s.data.all isPyWS

/-- First index at which `pat` occurs in `l` (Python `str.find` on success). -/
def listFindSub (pat : List Char) : List Char → Option Nat
  | [] => if pat.isEmpty then some 0 else none
  | c :: rest =>
      if pat.isPrefixOf (c :: rest) then some 0
      else (listFindSub pat rest).map (· + 1)

/-- Python `s.find(pat)`: index of the first occurrence, or none. -/
def strFind (s pat : String) : Option Nat :=
  listFindSub pat.data s.data

/-- Python `s.find(pat, start)`: first occurrence at index `start` or later. -/
def strFindFrom (s pat : String) (start : Nat) : Option Nat :=
  (listFindSub pat.data (s.data.drop start)).map (· + start)

/-- Python `s[:i]` (character slice). -/
def strTake (s : String) (i : Nat) : String :=
  (s.data.take i).asString

/-- Python `s[i:]` (character slice). -/
def strDrop (s : String) (i : Nat) : String :=
  (s.data.drop i).asString

/-- Rendering of a number (`number_repr`): Python prints the float and
trims a trailing ".0" from whole values.  Whole values and values whose
denominator divides a power of ten are rendered exactly as Python renders
the corresponding short float; other rationals (which no theorem below
renders) fall back to the numerator/denominator form. -/
def numberRepr (q : ℚ) : String :=
  if q.den = 1 then toString q.num
  else
    match (List.range 18).find? (fun k => (q * (10 ^ (k + 1) : ℚ)).den = 1) with
    | some k =>
        let shifted : ℤ := (q * (10 ^ (k + 1) : ℚ)).num
        let digits := toString shifted.natAbs
        let digits := (List.replicate (k + 2 - min (k + 2) digits.length) '0').asString ++ digits
        let whole := strTake digits (digits.length - (k + 1))
        let frac := strDrop digits (digits.length - (k + 1))
        (if q < 0 then "-" else "") ++ whole ++ "." ++ frac
    | none => toString q

/-- Two lowercase hex digits (`%02x` for a channel in 0..255). -/
def hexByte (n : ℤ) : String :=
  let m := n.toNat
  ⟨[Nat.digitChar (m / 16 % 16), Nat.digitChar (m % 16)]⟩

/-- Value of a hex digit character, when it is one (`int(_, 16)`). -/
def hexDigit (c : Char) : Option Nat :=
  if '0' ≤ c ∧ c ≤ '9' then some (c.toNat - '0'.toNat)
  else if 'a' ≤ c ∧ c ≤ 'f' then some (c.toNat - 'a'.toNat + 10)
  else if 'A' ≤ c ∧ c ≤ 'F' then some (c.toNat - 'A'.toNat + 10)
  else none

/-- Python `int(s, 16)` for a two-character hex pair. -/
def hexPair (a b : Char) : Option Nat := do
  let x ← hexDigit a
  let y ← hexDigit b
  pure (x * 16 + y)

/-- The condition `len(rv.split(None, 1)) > 1` of `Literal.to_string`:
after skipping leading whitespace and the first field, something non-blank
remains. -/
def hasSecondField (s : String) : Bool :=
  let t := s.data.dropWhile isPyWS
  let rest := t.dropWhile (fun c => ¬ isPyWS c)
  ¬ (rest.dropWhile isPyWS).isEmpty

/-- The escaping `Literal.to_string` applies inside quotes: the chained
`.replace` calls double backslashes and put a backslash in front of a
newline, a tab and a single quote (the newline and tab themselves are
kept, as in the source). -/
def literalEscape (s : String) : String :=
  (s.data.map (fun c =>
    if c = '\\' then "\\\\".data
    else if c = '\n' then ['\\', '\n']
    else if c = '\t' then ['\\', '\t']
    else if c = '\'' then ['\\', '\'']
    else [c])).flatten.asString

/-- `Literal.to_string`: a value whose text has embedded whitespace is
re-quoted with escaping, anything else renders as-is. -/
def literalToString (s : String) : String :=
  if hasSecondField s then "'" ++ literalEscape s ++ "'" else s

/-- The `_colors` literal table (name to hex code). -/
def colorNames : List (String × String) := [
  ("aliceblue", "#f0f8ff"),
  ("antiquewhite", "#faebd7"),
  ("aqua", "#00ffff"),
  ("aquamarine", "#7fffd4"),
  ("azure", "#f0ffff"),
  ("beige", "#f5f5dc"),
  ("bisque", "#ffe4c4"),
  ("black", "#000000"),
  ("blanchedalmond", "#ffebcd"),
  ("blue", "#0000ff"),
  ("blueviolet", "#8a2be2"),
  ("brown", "#a52a2a"),
  ("burlywood", "#deb887"),
  ("cadetblue", "#5f9ea0"),
  ("chartreuse", "#7fff00"),
  ("chocolate", "#d2691e"),
  ("coral", "#ff7f50"),
  ("cornflowerblue", "#6495ed"),
  ("cornsilk", "#fff8dc"),
  ("crimson", "#dc143c"),
  ("cyan", "#00ffff"),
  ("darkblue", "#00008b"),
  ("darkcyan", "#008b8b"),
  ("darkgoldenrod", "#b8860b"),
  ("darkgray", "#a9a9a9"),
  ("darkgreen", "#006400"),
  ("darkkhaki", "#bdb76b"),
  ("darkmagenta", "#8b008b"),
  ("darkolivegreen", "#556b2f"),
  ("darkorange", "#ff8c00"),
  ("darkorchid", "#9932cc"),
  ("darkred", "#8b0000"),
  ("darksalmon", "#e9967a"),
  ("darkseagreen", "#8fbc8f"),
  ("darkslateblue", "#483d8b"),
  ("darkslategray", "#2f4f4f"),
  ("darkturquoise", "#00ced1"),
  ("darkviolet", "#9400d3"),
  ("deeppink", "#ff1493"),
  ("deepskyblue", "#00bfff"),
  ("dimgray", "#696969"),
  ("dodgerblue", "#1e90ff"),
  ("firebrick", "#b22222"),
  ("floralwhite", "#fffaf0"),
  ("forestgreen", "#228b22"),
  ("fuchsia", "#ff00ff"),
  ("gainsboro", "#dcdcdc"),
  ("ghostwhite", "#f8f8ff"),
  ("gold", "#ffd700"),
  ("goldenrod", "#daa520"),
  ("gray", "#808080"),
  ("green", "#008000"),
  ("greenyellow", "#adff2f"),
  ("honeydew", "#f0fff0"),
  ("hotpink", "#ff69b4"),
  ("indianred", "#cd5c5c"),
  ("indigo", "#4b0082"),
  ("ivory", "#fffff0"),
  ("khaki", "#f0e68c"),
  ("lavender", "#e6e6fa"),
  ("lavenderblush", "#fff0f5"),
  ("lawngreen", "#7cfc00"),
  ("lemonchiffon", "#fffacd"),
  ("lightblue", "#add8e6"),
  ("lightcoral", "#f08080"),
  ("lightcyan", "#e0ffff"),
  ("lightgoldenrodyellow", "#fafad2"),
  ("lightgreen", "#90ee90"),
  ("lightgrey", "#d3d3d3"),
  ("lightpink", "#ffb6c1"),
  ("lightsalmon", "#ffa07a"),
  ("lightseagreen", "#20b2aa"),
  ("lightskyblue", "#87cefa"),
  ("lightslategray", "#778899"),
  ("lightsteelblue", "#b0c4de"),
  ("lightyellow", "#ffffe0"),
  ("lime", "#00ff00"),
  ("limegreen", "#32cd32"),
  ("linen", "#faf0e6"),
  ("magenta", "#ff00ff"),
  ("maroon", "#800000"),
  ("mediumaquamarine", "#66cdaa"),
  ("mediumblue", "#0000cd"),
  ("mediumorchid", "#ba55d3"),
  ("mediumpurple", "#9370db"),
  ("mediumseagreen", "#3cb371"),
  ("mediumslateblue", "#7b68ee"),
  ("mediumspringgreen", "#00fa9a"),
  ("mediumturquoise", "#48d1cc"),
  ("mediumvioletred", "#c71585"),
  ("midnightblue", "#191970"),
  ("mintcream", "#f5fffa"),
  ("mistyrose", "#ffe4e1"),
  ("moccasin", "#ffe4b5"),
  ("navajowhite", "#ffdead"),
  ("navy", "#000080"),
  ("oldlace", "#fdf5e6"),
  ("olive", "#808000"),
  ("olivedrab", "#6b8e23"),
  ("orange", "#ffa500"),
  ("orangered", "#ff4500"),
  ("orchid", "#da70d6"),
  ("palegoldenrod", "#eee8aa"),
  ("palegreen", "#98fb98"),
  ("paleturquoise", "#afeeee"),
  ("palevioletred", "#db7093"),
  ("papayawhip", "#ffefd5"),
  ("peachpuff", "#ffdab9"),
  ("peru", "#cd853f"),
  ("pink", "#ffc0cb"),
  ("plum", "#dda0dd"),
  ("powderblue", "#b0e0e6"),
  ("purple", "#800080"),
  ("red", "#ff0000"),
  ("rosybrown", "#bc8f8f"),
  ("royalblue", "#4169e1"),
  ("saddlebrown", "#8b4513"),
  ("salmon", "#fa8072"),
  ("sandybrown", "#f4a460"),
  ("seagreen", "#2e8b57"),
  ("seashell", "#fff5ee"),
  ("sienna", "#a0522d"),
  ("silver", "#c0c0c0"),
  ("skyblue", "#87ceeb"),
  ("slateblue", "#6a5acd"),
  ("slategray", "#708090"),
  ("snow", "#fffafa"),
  ("springgreen", "#00ff7f"),
  ("steelblue", "#4682b4"),
  ("tan", "#d2b48c"),
  ("teal", "#008080"),
  ("thistle", "#d8bfd8"),
  ("tomato", "#ff6347"),
  ("turquoise", "#40e0d0"),
  ("violet", "#ee82ee"),
  ("wheat", "#f5deb3"),
  ("white", "#ffffff"),
  ("whitesmoke", "#f5f5f5"),
  ("yellow", "#ffff00"),
  ("yellowgreen", "#9acd32")
]


/-- The `_reverse_colors` lookup (hex code to name).  Python builds a dict
from the reversed pairs, so for a duplicate hex code one of the names wins
according to dict iteration order; the model keeps the last name in source
order.  No theorem below depends on a duplicated code. -/
def reverseColorLookup (code : String) : Option String :=
  (colorNames.filter (fun kv => kv.2 = code)).getLast?.map (·.1)

/-- Lookup in the `_colors` table. -/
def colorNameLookup (name : String) : Option String :=
  (colorNames.find? (fun kv => kv.1 = name)).map (·.2)

/-- Channel extraction of `Color.__init__` from a hex string: "#rgb" doubles
each digit (`int(x * 2, 16)`), "#rrggbb" reads pairs; anything else (or a
bad digit, a ValueError in the source) is a ParserError "invalid color
value". -/
def colorChannelsOfHex (s : String) (lineno : Option Nat) :
    Except PyErr (Int × Int × Int) :=
  match s.data with
  | ['#', a, b, c] =>
      match hexPair a a, hexPair b b, hexPair c c with
      | some x, some y, some z => .ok ((x : Int), (y : Int), (z : Int))
      | _, _, _ => .error (.parser lineno "invalid color value")
  | ['#', a, b, c, d, e, f] =>
      match hexPair a b, hexPair c d, hexPair e f with
      | some x, some y, some z => .ok ((x : Int), (y : Int), (z : Int))
      | _, _, _ => .error (.parser lineno "invalid color value")
  | _ => .error (.parser lineno "invalid color value")

/-- `Color.__init__` on a string: a leading "#" parses hex digits, anything
else is looked up as a color name (setting `from_name`); an unknown name is
a ParserError "unknown color name". -/
def colorOfString (s : String) (lineno : Option Nat) : Except PyErr Expr :=
  if (s.data.head?).isEqSome '#' then do
    let ch <- colorChannelsOfHex s lineno
    pure (.color ch false lineno)
  else
    match colorNameLookup s with
    | none => .error (.parser lineno "unknown color name")
    | some hex => do
        let ch <- colorChannelsOfHex hex lineno
        pure (.color ch true lineno)

/-- `Color.to_string`: the hex code, replaced by the color name when the
color was given as a name and the code reverse-maps to one (the Python
`and`/`or` chain falls back to the code). -/
def colorToString (c : Int × Int × Int) (fromName : Bool) : String :=
  let code := "#" ++ hexByte c.1 ++ hexByte c.2.1 ++ hexByte c.2.2
  if fromName then (reverseColorLookup code).getD code else code

/-- CPython `colorsys.rgb_to_hls` over exact rationals. -/
def colorsysRgbToHls (r g b : Rat) : Rat × Rat × Rat :=
  let maxc := max r (max g b)
  let minc := min r (min g b)
  let l := (minc + maxc) / 2
  if minc = maxc then (0, l, 0)
  else
    let s := if l ≤ 1/2 then (maxc - minc) / (maxc + minc)
             else (maxc - minc) / (2 - maxc - minc)
    let rc := (maxc - r) / (maxc - minc)
    let gc := (maxc - g) / (maxc - minc)
    let bc := (maxc - b) / (maxc - minc)
    let h := if r = maxc then bc - gc
             else if g = maxc then 2 + rc - bc
             else 4 + gc - rc
    (pyFract (h / 6), l, s)

/-- CPython `colorsys._v`. -/
def colorsysV (m1 m2 hue : Rat) : Rat :=
  let hue := pyFract hue
  if hue < 1/6 then m1 + (m2 - m1) * hue * 6
  else if hue < 1/2 then m2
  else if hue < 2/3 then m1 + (m2 - m1) * (2/3 - hue) * 6
  else m1

/-- CPython `colorsys.hls_to_rgb` over exact rationals. -/
def colorsysHlsToRgb (h l s : Rat) : Rat × Rat × Rat :=
  if s = 0 then (l, l, l)
  else
    let m2 := if l ≤ 1/2 then l * (1 + s) else l + s - l * s
    let m1 := 2 * l - m2
    (colorsysV m1 m2 (h + 1/3), colorsysV m1 m2 h, colorsysV m1 m2 (h - 1/3))

/-- The module-level `rgb_to_hls`: channels 0..255 scaled into 0..1. -/
def rgbToHls (c : Int × Int × Int) : Rat × Rat × Rat :=
  colorsysRgbToHls ((c.1 : Rat) / 255) ((c.2.1 : Rat) / 255) ((c.2.2 : Rat) / 255)

/-- The module-level `hls_to_rgb`: back to integer channels through
`int(round(x * 255))`. -/
def hlsToRgb (h l s : Rat) : Int × Int × Int :=
  let t := colorsysHlsToRgb h l s
  (pyRoundInt (t.1 * 255), pyRoundInt (t.2.1 * 255), pyRoundInt (t.2.2 * 255))

/-- `brighten_color(color, context, amount=None)`.  A percent Value of zero
returns the color object unchanged; a nonzero percent multiplies lightness
by `1 + amount/100`; a Number adds `amount/100`; a Value in any other unit
hits the `self.lineno` reference inside a module-level function and raises
NameError; any other amount kind leaves lightness unchanged.  Lightness is
clamped above at 1 and the rebuilt Color carries no lineno. -/
def brightenColor (c : Int × Int × Int) (fromName : Bool) (lineno : Option Nat)
    (amount : Option Expr) : Except PyErr Expr :=
  let amount := amount.getD (.val 10 "%" none)
  let hls := rgbToHls c
  let finish : Rat → Except PyErr Expr := fun lightness =>
    let lightness := if 1 < lightness then 1 else lightness
    .ok (.color (hlsToRgb hls.1 lightness hls.2.2) false none)
  match amount with
  | .val a u _ =>
      if u = "%" then
        if a = 0 then .ok (.color c fromName lineno)
        else finish (hls.2.1 * (1 + a / 100))
      else .error (.nameError "global name 'self' is not defined")
  | .num a _ => finish (hls.2.1 + a / 100)
  | _ => finish hls.2.1

/-- `darken_color(color, context, amount=None)`: a nonzero percent Value
multiplies lightness by `amount/100` (zero percent returns the color
unchanged), a Number subtracts `amount/100`; lightness is clamped below at
0. -/
def darkenColor (c : Int × Int × Int) (fromName : Bool) (lineno : Option Nat)
    (amount : Option Expr) : Except PyErr Expr :=
  let amount := amount.getD (.val 10 "%" none)
  let hls := rgbToHls c
  let finish : Rat → Except PyErr Expr := fun lightness =>
    let lightness := if lightness < 0 then 0 else lightness
    .ok (.color (hlsToRgb hls.1 lightness hls.2.2) false none)
  match amount with
  | .val a u _ =>
      if u = "%" then
        if a = 0 then .ok (.color c fromName lineno)
        else finish (hls.2.1 * (a / 100))
      else .error (.nameError "global name 'self' is not defined")
  | .num a _ => finish (hls.2.1 - a / 100)
  | _ => finish hls.2.1

/-- Channel clamping of `Color._calc`. -/
def clampChannel (v : Int) : Int :=
  if 255 < v then 255 else if v < 0 then 0 else v

/-- `Color._calc`: combine channel-wise with `method`, against either the
other color's channels or the truncated integer of a Number, clamping each
resulting channel into 0..255; the result keeps the receiver's lineno and
is not a named color. -/
def colorCalc (c : Int × Int × Int) (lineno : Option Nat) (other : Expr)
    (method : Int → Int → Int) : Expr :=
  match other with
  | .num n _ =>
      let o := pyInt n
      .color (clampChannel (method c.1 o), clampChannel (method c.2.1 o),
              clampChannel (method c.2.2 o)) false lineno
  | .color c2 _ _ =>
      .color (clampChannel (method c.1 c2.1), clampChannel (method c.2.1 c2.2.1),
              clampChannel (method c.2.2 c2.2.2)) false lineno
  | _ => .color c false lineno

/-- Error message of the base-class `Expr.sub`. -/
def baseSubErr (a b : Expr) : PyErr :=
  .eval a.lineno ("cannot substract " ++ a.pyName ++ " from " ++ b.pyName)

/-- Error message of the base-class `Expr.mul`. -/
def baseMulErr (a b : Expr) : PyErr :=
  .eval a.lineno ("cannot multiply " ++ a.pyName ++ " with " ++ b.pyName)

/-- Error message of the base-class `Expr.div`. -/
def baseDivErr (a b : Expr) : PyErr :=
  .eval a.lineno ("cannot divide " ++ a.pyName ++ " by " ++ b.pyName)

/-- Error message of the base-class `Expr.mod`. -/
def baseModErr (a b : Expr) : PyErr :=
  .eval a.lineno ("cannot use the modulo operator for " ++ a.pyName ++
    " and " ++ b.pyName ++ ". Misplaced unit symbol?")

/-- The base-class `Expr.neg` interpolates a 2-slot format string with the
single `self.name`, so Python raises TypeError instead of the intended
EvalException. -/
def baseNegErr : PyErr :=
  .typeError "not enough arguments for format string"

/-- Python string repetition `s * n` (non-positive count gives ""). -/
def pyStrRepeat (s : String) (n : Int) : String :=
  (List.replicate n.toNat s.data).flatten.asString

/-- `neg` dispatch: `Number.neg` drops the lineno, `Value.neg` keeps it,
everything else reaches the broken base-class `Expr.neg` format string and
raises TypeError. -/
def negE : Expr → Except PyErr Expr
  | .num x _ => .ok (.num (-x) none)
  | .val x u ln => .ok (.val (-x) u ln)
  | _ => .error baseNegErr

/-- Error for a method unknown to a value kind (`Expr.call`). -/
def unknownMethodErr (a : Expr) (method : String) : PyErr :=
  .eval a.lineno (a.pyName ++ " objects don't have a method called \"" ++
    method ++ "\". If you want to use this construct as string, quote it.")

/-- The unit-converting arithmetic of `Value._conv_calc` on two Values.
Identical units combine directly; different units of one family are both
expressed in the unit with the *smaller* reference factor and the result
carries that unit — and in the branch where the left unit's factor is the
smaller one, the operands reach `calc` in reversed order.  `msgFor`
renders the template passed by `add`/`sub` with the two unit names. -/
def convCalcVV (x : Rat) (u1 : String) (ln : Option Nat) (y : Rat) (u2 : String)
    (op : Rat → Rat → Rat) (msgFor : String → String → String) :
    Except PyErr Expr :=
  if u1 = u2 then .ok (.val (op x y) u2 ln)
  else
    match convMapping u1, convMapping u2 with
    | some t1, some t2 =>
        if t1 ≠ t2 then
          .error (.eval ln (msgFor u1 u2 ++
            " because the two units are not compatible."))
        else
          match convFactor t1 u1, convFactor t2 u2 with
          | some f1, some f2 =>
              if f2 < f1 then .ok (.val (op (x / f2 * f1) y) u2 ln)
              else .ok (.val (op (y / f1 * f2) x) u1 ln)
          | _, _ => .error (.typeError "KeyError")
    | _, _ =>
        .error (.eval ln (msgFor u1 u2 ++
          " because the two units are not compatible."))

/-- Message template "cannot add %s and %s" of `Value.add`. -/
def cannotAddMsg (u1 u2 : String) : String :=
  "cannot add " ++ u1 ++ " and " ++ u2

/-- Message template "cannot subtract %s from %s" of `Value.sub` (the
source substitutes `(self.unit, other.unit)` in that order). -/
def cannotSubMsg (u1 u2 : String) : String :=
  "cannot subtract " ++ u1 ++ " from " ++ u2

/-- Conversion of one `rgb()` argument (`RGB.evaluate` body): a Number
truncates, a percent Value scales by 255, anything else is an
EvalException; an out-of-range channel hits the undefined name `EvalError`
and raises NameError instead of an evaluation error. -/
def rgbChannel (arg : Expr) (lineno : Option Nat) : Except PyErr Int := do
  let value ← match arg with
    | .num n _ => pure (pyInt n)
    | .val n u _ =>
        if u = "%" then pure (pyInt (n / 100 * 255))
        else .error (.eval lineno ("colors defined using the rgb() literal " ++
          "only accept numbers and percentages."))
    | _ => .error (.eval lineno ("colors defined using the rgb() literal " ++
          "only accept numbers and percentages."))
  if value < 0 ∨ 255 < value then
    .error (.nameError "global name 'EvalError' is not defined")
  else
    pure value

mutual

/-- `Expr.evaluate` dispatch over an evaluation context.  Literal nodes
(and `List`/`ImplicitConcat`, which override only `to_string`) evaluate to
themselves; `Var.evaluate` swaps the `FailingVar` sentinel in for the
duration of resolving its definition. -/
def evalExpr : Nat → Ctx → Expr → Except PyErr Expr
  | 0, _, _ => .error .fuel
  | f + 1, ctx, e =>
    match e with
    | .var name ln =>
        match ctxLookup ctx name with
        | none => .error (.eval ln ("variable " ++ name ++ " is not defined"))
        | some v => evalExpr f (ctxSet ctx name (.failingVar name ln)) v
    | .failingVar name ln =>
        .error (.eval ln ("Circular variable dependencies detected when " ++
          "resolving " ++ name ++ "."))
    | .add l r _ => do
        let a ← evalExpr f ctx l
        let b ← evalExpr f ctx r
        addE f ctx a b
    | .sub l r _ => do
        let a ← evalExpr f ctx l
        let b ← evalExpr f ctx r
        subE f ctx a b
    | .mul l r _ => do
        let a ← evalExpr f ctx l
        let b ← evalExpr f ctx r
        mulE f ctx a b
    | .div l r _ => do
        let a ← evalExpr f ctx l
        let b ← evalExpr f ctx r
        divE f ctx a b
    | .mod l r _ => do
        let a ← evalExpr f ctx l
        let b ← evalExpr f ctx r
        modE f ctx a b
    | .neg n _ => do
        let a ← evalExpr f ctx n
        negE a
    | .call obj m args _ => do
        let o ← evalExpr f ctx obj
        let as ← evalArgs f ctx args
        callE f ctx o m as
    | .rgb args ln => do
        let chans ← rgbChannels f ctx args ln
        match chans with
        | [r, g, b] => pure (.color (r, g, b) false ln)
        | _ => .error (.typeError "color channel count")
    | other => pure other

/-- Evaluation of a method-call argument list, left to right. -/
def evalArgs : Nat → Ctx → List Expr → Except PyErr (List Expr)
  | 0, _, _ => .error .fuel
  | _ + 1, _, [] => pure []
  | f + 1, ctx, e :: rest => do
      let v ← evalExpr f ctx e
      let vs ← evalArgs f ctx rest
      pure (v :: vs)

/-- Evaluation and range-checking of the `rgb()` argument list. -/
def rgbChannels : Nat → Ctx → List Expr → Option Nat → Except PyErr (List Int)
  | 0, _, _, _ => .error .fuel
  | _ + 1, _, [], _ => pure []
  | f + 1, ctx, e :: rest, ln => do
      let v ← evalExpr f ctx e
      let c ← rgbChannel v ln
      let cs ← rgbChannels f ctx rest ln
      pure (c :: cs)

/-- The base-class `Expr.add`: stringify both sides and concatenate into a
`String` (no lineno). -/
def baseAdd : Nat → Ctx → Expr → Expr → Except PyErr Expr
  | 0, _, _, _ => .error .fuel
  | f + 1, ctx, a, b => do
      let sa ← toStr f ctx a
      let sb ← toStr f ctx b
      pure (.str (sa ++ sb) none)

/-- `add` dispatch on the evaluated pair (`Number.add`, `Value.add`,
`Color.add`, `URL.add`, `List.add`, base fallback). -/
def addE : Nat → Ctx → Expr → Expr → Except PyErr Expr
  | 0, _, _, _ => .error .fuel
  | f + 1, ctx, a, b =>
    match a with
    | .num x ln =>
        match b with
        | .num y _ => pure (.num (x + y) ln)
        | .val y u _ => pure (.val (x + y) u ln)
        | _ => baseAdd f ctx a b
    | .val x u ln =>
        match b with
        | .num y _ => pure (.val (x + y) u none)
        | .val y u2 _ => convCalcVV x u ln y u2 (· + ·) cannotAddMsg
        | _ => baseAdd f ctx a b
    | .color c fn ln =>
        match b with
        | .num _ _ => pure (colorCalc c ln b (· + ·))
        | .color _ _ _ => pure (colorCalc c ln b (· + ·))
        | _ => baseAdd f ctx (.color c fn ln) b
    | .url x ln => do
        let sb ← toStr f ctx b
        pure (.url (x ++ sb) ln)
    | .list _ _ =>
        .error (.typeError "add() takes exactly 2 arguments (3 given)")
    | _ => baseAdd f ctx a b

/-- `sub` dispatch (`Number.sub`, `Value.sub`, `Color.sub`, base error). -/
def subE : Nat → Ctx → Expr → Expr → Except PyErr Expr
  | 0, _, _, _ => .error .fuel
  | _ + 1, _, a, b =>
    match a with
    | .num x ln =>
        match b with
        | .num y _ => pure (.num (x - y) ln)
        | .val y u _ => pure (.val (x - y) u ln)
        | _ => .error (baseSubErr a b)
    | .val x u ln =>
        match b with
        | .num y _ => pure (.val (x - y) u none)
        | .val y u2 _ => convCalcVV x u ln y u2 (· - ·) cannotSubMsg
        | _ => .error (baseSubErr a b)
    | .color c _ ln =>
        match b with
        | .num _ _ => pure (colorCalc c ln b (· - ·))
        | .color _ _ _ => pure (colorCalc c ln b (· - ·))
        | _ => .error (baseSubErr a b)
    | _ => .error (baseSubErr a b)

/-- `mul` dispatch.  `String.mul` against a non-Number forwards to
`Literal.mul` with an extra `lineno` keyword, a Python TypeError. -/
def mulE : Nat → Ctx → Expr → Expr → Except PyErr Expr
  | 0, _, _, _ => .error .fuel
  | _ + 1, _, a, b =>
    match a with
    | .num x ln =>
        match b with
        | .num y _ => pure (.num (x * y) ln)
        | .val y u _ => pure (.val (x * y) u ln)
        | _ => .error (baseMulErr a b)
    | .val x u ln =>
        match b with
        | .num y _ => pure (.val (x * y) u ln)
        | _ => .error (baseMulErr a b)
    | .color c _ ln =>
        match b with
        | .num _ _ => pure (colorCalc c ln b (· * ·))
        | .color _ _ _ => pure (colorCalc c ln b (· * ·))
        | _ => .error (baseMulErr a b)
    | .str s ln =>
        match b with
        | .num y _ => pure (.str (pyStrRepeat s (pyInt y)) ln)
        | _ => .error (.typeError "mul() got an unexpected keyword argument 'lineno'")
    | .url s ln =>
        match b with
        | .num y _ => pure (.url (pyStrRepeat s (pyInt y)) ln)
        | _ => .error (baseMulErr a b)
    | _ => .error (baseMulErr a b)

/-- `div` dispatch.  `Number.div` turns ZeroDivisionError into the
EvalException "cannot divide by zero"; `Value.div`'s handler passes
`lineno` twice to `EvalException` and raises TypeError instead; `Color.div`
delegates to `_calc` with `operator.sub`. -/
def divE : Nat → Ctx → Expr → Expr → Except PyErr Expr
  | 0, _, _, _ => .error .fuel
  | _ + 1, _, a, b =>
    match a with
    | .num x ln =>
        match b with
        | .num y _ =>
            if y = 0 then .error (.eval ln "cannot divide by zero")
            else pure (.num (x / y) ln)
        | .val y u _ =>
            if y = 0 then .error (.eval ln "cannot divide by zero")
            else pure (.val (x / y) u ln)
        | _ => .error (baseDivErr a b)
    | .val x u ln =>
        match b with
        | .num y _ =>
            if y = 0 then
              .error (.typeError
                "__init__() got multiple values for keyword argument 'lineno'")
            else pure (.val (x / y) u ln)
        | _ => .error (baseDivErr a b)
    | .color c _ ln =>
        match b with
        | .num _ _ => pure (colorCalc c ln b (· - ·))
        | .color _ _ _ => pure (colorCalc c ln b (· - ·))
        | _ => .error (baseDivErr a b)
    | _ => .error (baseDivErr a b)

/-- `mod` dispatch (`Number.mod`, `Value.mod`, base error elsewhere). -/
def modE : Nat → Ctx → Expr → Expr → Except PyErr Expr
  | 0, _, _, _ => .error .fuel
  | _ + 1, _, a, b =>
    match a with
    | .num x ln =>
        match b with
        | .num y _ =>
            if y = 0 then .error (.eval ln "cannot divide by zero")
            else pure (.num (pyMod x y) ln)
        | .val y u _ =>
            if y = 0 then .error (.eval ln "cannot divide by zero")
            else pure (.val (pyMod x y) u ln)
        | _ => .error (baseModErr a b)
    | .val x u ln =>
        match b with
        | .num y _ =>
            if y = 0 then .error (.eval ln "cannot divide by zero")
            else pure (.val (pyMod x y) u ln)
        | _ => .error (baseModErr a b)
    | _ => .error (baseModErr a b)

/-- `to_string` dispatch: literals render directly, `List` and
`ImplicitConcat` join their items' renderings, anything else evaluates
first (`Expr.to_string`). -/
def toStr : Nat → Ctx → Expr → Except PyErr String
  | 0, _, _ => .error .fuel
  | f + 1, ctx, e =>
    match e with
    | .num x _ => pure (numberRepr x)
    | .val x u _ => pure (numberRepr x ++ u)
    | .color c fn _ => pure (colorToString c fn)
    | .str s _ => pure (literalToString s)
    | .url s _ => pure ("url(" ++ literalToString s ++ ")")
    | .list items _ => do
        let parts ← toStrList f ctx items
        pure (String.intercalate ", " parts)
    | .concat nodes _ => do
        let parts ← toStrList f ctx nodes
        pure (String.intercalate " " parts)
    | other => do
        let v ← evalExpr f ctx other
        toStr f ctx v

/-- Renderings of a list of expressions, left to right. -/
def toStrList : Nat → Ctx → List Expr → Except PyErr (List String)
  | 0, _, _ => .error .fuel
  | _ + 1, _, [] => pure []
  | f + 1, ctx, e :: rest => do
      let s ← toStr f ctx e
      let ss ← toStrList f ctx rest
      pure (s :: ss)

/-- `Expr.call` dispatch: the universal `string` and `type` methods, then
the per-kind method tables.  `String.split` and `String.eval` are outside
the model (the former wraps a Python list in a `String`, the latter
re-enters the raw-text parser); no theorem below calls them. -/
def callE : Nat → Ctx → Expr → String → List Expr → Except PyErr Expr
  | 0, _, _, _, _ => .error .fuel
  | f + 1, ctx, obj, m, args =>
    if m = "string" then
      match obj with
      | .str _ _ => pure obj
      | _ => do
          let s ← toStr f ctx obj
          pure (.str s none)
    else if m = "type" then
      pure (.str obj.pyName none)
    else
      match obj with
      | .num x ln =>
          match m, args with
          | "abs", [] => pure (.num |x| none)
          | "abs", _ => .error (.typeError "method argument count")
          | "round", [] => pure (.num (pyRound0 x) none)
          | "round", [_] => .error (.typeError "a float is required")
          | "round", _ => .error (.typeError "method argument count")
          | _, _ => .error (unknownMethodErr (.num x ln) m)
      | .val x u ln =>
          match m, args with
          | "abs", [] => pure (.val |x| u none)
          | "abs", _ => .error (.typeError "method argument count")
          | "round", [] => pure (.val (pyRound0 x) u none)
          | "round", [_] => .error (.typeError "a float is required")
          | "round", _ => .error (.typeError "method argument count")
          | _, _ => .error (unknownMethodErr (.val x u ln) m)
      | .color c fn ln =>
          match m, args with
          | "brighten", [] => brightenColor c fn ln none
          | "brighten", [a] => brightenColor c fn ln (some a)
          | "brighten", _ => .error (.typeError "method argument count")
          | "darken", [] => darkenColor c fn ln none
          | "darken", [a] => darkenColor c fn ln (some a)
          | "darken", _ => .error (.typeError "method argument count")
          | "hex", [] => pure (.color c false ln)
          | "hex", _ => .error (.typeError "method argument count")
          | _, _ => .error (unknownMethodErr (.color c fn ln) m)
      | .str s ln =>
          match m, args with
          | "length", [] => pure (.num (s.length : Rat) none)
          | "upper", [] => pure (.str s.toUpper none)
          | "lower", [] => pure (.str s.toLower none)
          | "strip", [] => pure (.str (pyStrip s) none)
          | _, _ => .error (unknownMethodErr (.str s ln) m)
      | .url s ln =>
          match m, args with
          | "length", [] =>
              .error (.nameError "global name 'self' is not defined")
          | _, _ => .error (unknownMethodErr (.url s ln) m)
      | .concat nodes ln =>
          match m, args with
          | "list", [] => pure (.list nodes none)
          | _, _ => .error (unknownMethodErr (.concat nodes ln) m)
      | .list items ln =>
          match m, args with
          | "length", [] => pure (.num (items.length : Rat) none)
          | "join", [] => do
              let parts ← toStrList f ctx items
              pure (.str (String.intercalate " " parts) none)
          | "join", [.str d _] => do
              let parts ← toStrList f ctx items
              pure (.str (String.intercalate d parts) none)
          | "join", [_] => .error (.typeError "join delimiter")
          | "join", _ => .error (.typeError "method argument count")
          | _, _ => .error (unknownMethodErr (.list items ln) m)
      | other => .error (unknownMethodErr other m)

end

/-- Tokens of the expression tokenizer, as the parser sees them: the pair
(value, token) with the value already decoded.  `rgbTok` is the
reclassified bare "rgb", `colorTok` carries the raw text (hex code or
literal color name) that `Color.__init__` will parse, `callTok` is a
dotted method-call name, `eofTok` is the stream's terminal `(None, 'eof')`
pair. -/
inductive Tok where
  | opTok (s : String)
  | callTok (name : String)
  | valueTok (n : Rat) (unit : String)
  | colorTok (s : String)
  | numberTok (n : Rat)
  | urlTok (s : String)
  | stringTok (s : String)
  | rgbTok
  | varTok (name : String)
  | eofTok
deriving DecidableEq

/-- The stream's current token (`TokenStream.current`; an exhausted stream
reads as the eof pair). -/
def curTok (ts : List Tok) : Tok :=
  ts.headD .eofTok

/-- Rendering of a token's value slot for `expect` error messages (the
Python message interpolates `self.current[0]`). -/
def tokValue : Tok → String
  | .opTok s => s
  | .callTok s => s
  | .valueTok n u => numberRepr n ++ u
  | .colorTok s => s
  | .numberTok n => numberRepr n
  | .urlTok s => s
  | .stringTok s => s
  | .rgbTok => "None"
  | .varTok s => s
  | .eofTok => "None"

/-- `TokenStream.expect` for an operator token: consume it or raise the
"expected ..., got ..." ParserError. -/
def expectOp (ln : Nat) (s : String) (ts : List Tok) :
    Except PyErr (List Tok) :=
  if curTok ts = .opTok s then .ok ts.tail
  else .error (.parser (some ln)
    ("expected '" ++ s ++ "', got '" ++ tokValue (curTok ts) ++ "'."))

set_option maxHeartbeats 1600000

mutual

/-- `Parser.expr`: a `;`-separated (and, unless `ignoreComma`,
`,`-separated) list of concatenations; a single element stands alone, more
become a `List` node. -/
def pExpr : Nat → Nat → Bool → List Tok → Except PyErr (Expr × List Tok)
  | 0, _, _, _ => .error .fuel
  | f + 1, ln, ignoreComma, ts => do
      let (first, ts) ← pConcat f ln ts
      let (args, ts) ← pExprRest f ln ignoreComma [first] ts
      match args with
      | [single] => pure (single, ts)
      | _ => pure (.list args (some ln), ts)

/-- The separator loop of `Parser.expr`. -/
def pExprRest : Nat → Nat → Bool → List Expr → List Tok →
    Except PyErr (List Expr × List Tok)
  | 0, _, _, _, _ => .error .fuel
  | f + 1, ln, ignoreComma, args, ts =>
      if curTok ts = .opTok ";" ∨ (¬ ignoreComma ∧ curTok ts = .opTok ",") then do
        let (e, ts) ← pConcat f ln ts.tail
        pExprRest f ln ignoreComma (args ++ [e]) ts
      else pure (args, ts)

/-- `Parser.concat`: juxtaposed additive expressions until eof, a list
separator or a closing parenthesis; two or more become `ImplicitConcat`. -/
def pConcat : Nat → Nat → List Tok → Except PyErr (Expr × List Tok)
  | 0, _, _ => .error .fuel
  | f + 1, ln, ts => do
      let (first, ts) ← pAdd f ln ts
      let (args, ts) ← pConcatRest f ln [first] ts
      match args with
      | [single] => pure (single, ts)
      | _ => pure (.concat args (some ln), ts)

/-- The juxtaposition loop of `Parser.concat`. -/
def pConcatRest : Nat → Nat → List Expr → List Tok →
    Except PyErr (List Expr × List Tok)
  | 0, _, _, _ => .error .fuel
  | f + 1, ln, args, ts =>
      if curTok ts = .eofTok ∨ curTok ts = .opTok "," ∨
         curTok ts = .opTok ";" ∨ curTok ts = .opTok ")" then
        pure (args, ts)
      else do
        let (e, ts) ← pAdd f ln ts
        pConcatRest f ln (args ++ [e]) ts

/-- `Parser.add`: left-associated `+` chain over `Parser.sub`. -/
def pAdd : Nat → Nat → List Tok → Except PyErr (Expr × List Tok)
  | 0, _, _ => .error .fuel
  | f + 1, ln, ts => do
      let (left, ts) ← pSub f ln ts
      pAddRest f ln left ts

def pAddRest : Nat → Nat → Expr → List Tok → Except PyErr (Expr × List Tok)
  | 0, _, _, _ => .error .fuel
  | f + 1, ln, left, ts =>
      if curTok ts = .opTok "+" then do
        let (right, ts) ← pSub f ln ts.tail
        pAddRest f ln (.add left right (some ln)) ts
      else pure (left, ts)

/-- `Parser.sub`: left-associated `-` chain over `Parser.mul`. -/
def pSub : Nat → Nat → List Tok → Except PyErr (Expr × List Tok)
  | 0, _, _ => .error .fuel
  | f + 1, ln, ts => do
      let (left, ts) ← pMul f ln ts
      pSubRest f ln left ts

def pSubRest : Nat → Nat → Expr → List Tok → Except PyErr (Expr × List Tok)
  | 0, _, _, _ => .error .fuel
  | f + 1, ln, left, ts =>
      if curTok ts = .opTok "-" then do
        let (right, ts) ← pMul f ln ts.tail
        pSubRest f ln (.sub left right (some ln)) ts
      else pure (left, ts)

/-- `Parser.mul`: left-associated `*` chain over `Parser.div`. -/
def pMul : Nat → Nat → List Tok → Except PyErr (Expr × List Tok)
  | 0, _, _ => .error .fuel
  | f + 1, ln, ts => do
      let (left, ts) ← pDiv f ln ts
      pMulRest f ln left ts

def pMulRest : Nat → Nat → Expr → List Tok → Except PyErr (Expr × List Tok)
  | 0, _, _, _ => .error .fuel
  | f + 1, ln, left, ts =>
      if curTok ts = .opTok "*" then do
        let (right, ts) ← pDiv f ln ts.tail
        pMulRest f ln (.mul left right (some ln)) ts
      else pure (left, ts)

/-- `Parser.div`: left-associated `/` chain over `Parser.mod`. -/
def pDiv : Nat → Nat → List Tok → Except PyErr (Expr × List Tok)
  | 0, _, _ => .error .fuel
  | f + 1, ln, ts => do
      let (left, ts) ← pMod f ln ts
      pDivRest f ln left ts

def pDivRest : Nat → Nat → Expr → List Tok → Except PyErr (Expr × List Tok)
  | 0, _, _, _ => .error .fuel
  | f + 1, ln, left, ts =>
      if curTok ts = .opTok "/" then do
        let (right, ts) ← pMod f ln ts.tail
        pDivRest f ln (.div left right (some ln)) ts
      else pure (left, ts)

/-- `Parser.mod`: left-associated `%` chain over `Parser.neg`. -/
def pMod : Nat → Nat → List Tok → Except PyErr (Expr × List Tok)
  | 0, _, _ => .error .fuel
  | f + 1, ln, ts => do
      let (left, ts) ← pNeg f ln ts
      pModRest f ln left ts

def pModRest : Nat → Nat → Expr → List Tok → Except PyErr (Expr × List Tok)
  | 0, _, _, _ => .error .fuel
  | f + 1, ln, left, ts =>
      if curTok ts = .opTok "%" then do
        let (right, ts) ← pNeg f ln ts.tail
        pModRest f ln (.mod left right (some ln)) ts
      else pure (left, ts)

/-- `Parser.neg`: a leading `-` wraps the primary in `Neg`. -/
def pNeg : Nat → Nat → List Tok → Except PyErr (Expr × List Tok)
  | 0, _, _ => .error .fuel
  | f + 1, ln, ts =>
      if curTok ts = .opTok "-" then do
        let (node, ts) ← pPrimary f ln ts.tail
        pure (.neg node (some ln), ts)
      else pPrimary f ln ts

/-- `Parser.primary`: literals, variables, parenthesized expressions, the
`rgb(...)` form (which returns without scanning call suffixes), the
standalone-method error, and the catch-all that turns any other token's
value into a `String`; then zero or more dotted method-call suffixes. -/
def pPrimary : Nat → Nat → List Tok → Except PyErr (Expr × List Tok)
  | 0, _, _ => .error .fuel
  | f + 1, ln, ts =>
      match curTok ts with
      | .numberTok n => pSuffix f ln (.num n (some ln)) ts.tail
      | .valueTok n u => pSuffix f ln (.val n u (some ln)) ts.tail
      | .colorTok s => do
          let c ← colorOfString s (some ln)
          pSuffix f ln c ts.tail
      | .rgbTok =>
          let ts := ts.tail
          if curTok ts = .opTok "(" then do
            let (a1, ts) ← pExpr f ln true ts.tail
            let ts ← expectOp ln "," ts
            let (a2, ts) ← pExpr f ln true ts
            let ts ← expectOp ln "," ts
            let (a3, ts) ← pExpr f ln true ts
            let ts ← expectOp ln ")" ts
            pure (.rgb [a1, a2, a3] (some ln), ts)
          else pSuffix f ln (.str "rgb" none) ts
      | .stringTok s => pSuffix f ln (.str s (some ln)) ts.tail
      | .urlTok s => pSuffix f ln (.url s (some ln)) ts.tail
      | .varTok s => pSuffix f ln (.var s (some ln)) ts.tail
      | .opTok "(" =>
          let ts := ts.tail
          if curTok ts = .opTok ")" then
            .error (.parser (some ln) ("empty parentheses are not valid. " ++
              "If you want to use them as string you have to quote them."))
          else do
            let (node, ts) ← pExpr f ln false ts
            let ts ← expectOp ln ")" ts
            pSuffix f ln node ts
      | .callTok _ =>
          .error (.parser (some ln) ("You cannot call standalone methods. " ++
            "If you wanted to use it as a string you have to quote it."))
      | .opTok s => pSuffix f ln (.str s (some ln)) ts.tail
      | .eofTok => pSuffix f ln (.str "None" (some ln)) ts.tail

/-- The trailing method-call loop of `Parser.primary` plus `Parser.call`.
The argument list is parsed with `expr` (commas not suppressed), exactly
as the source does. -/
def pSuffix : Nat → Nat → Expr → List Tok → Except PyErr (Expr × List Tok)
  | 0, _, _, _ => .error .fuel
  | f + 1, ln, node, ts =>
      match curTok ts with
      | .callTok m => do
          let (args, ts) ← pCallArgs f ln [] ts.tail
          let ts ← expectOp ln ")" ts
          pSuffix f ln (.call node m args (some ln)) ts
      | _ => pure (node, ts)

/-- The argument loop of `Parser.call`. -/
def pCallArgs : Nat → Nat → List Expr → List Tok →
    Except PyErr (List Expr × List Tok)
  | 0, _, _, _ => .error .fuel
  | f + 1, ln, args, ts =>
      if curTok ts = .opTok ")" then pure (args, ts)
      else do
        let ts ← if args.isEmpty then pure ts else expectOp ln "," ts
        let (e, ts) ← pExpr f ln false ts
        pCallArgs f ln (args ++ [e]) ts

end

/-- `Parser.parse_expr` from a token list: the Python method first trims
trailing `;` from the raw text (a tokenizer-level concern outside this
token-list model) and then parses one `expr` with commas active. -/
def parseExpr (ln : Nat) (ts : List Tok) : Except PyErr Expr :=
  (pExpr 64 ln false ts).map (·.1)

/-- The `_line_comment_re` substitution: text from the first `//` not
immediately preceded by `:` is removed to the end of the line.  `prev` is
the character before the scan position (the regex lookbehind). -/
def stripLineCommentAux (prev : Option Char) : List Char → List Char
  | [] => []
  | c :: rest =>
      if c = '/' ∧ rest.head? = some '/' ∧ prev ≠ some ':' then []
      else c :: stripLineCommentAux (some c) rest

def stripLineComment (s : String) : String :=
  (stripLineCommentAux none s.data).asString

/-- `LineIterator._read_line` on the remaining physical lines: strip line
comments and trailing whitespace, skip blank results while counting line
numbers, return the incremented line number with the line and the rest;
`none` is the StopIteration at end of input.  The returned line number
counts every physical line consumed so far. -/
def readLine (n : Nat) : List String → Option (Nat × String × List String)
  | [] => none
  | l :: rest =>
      let s := pyRstrip (stripLineComment l)
      if isBlankLine s then readLine (n + 1) rest
      else some (n + 1, s, rest)

/-- One step of `LineIterator._next` (and the `next` endmarker handling is
`scanStop` below): a yielded line, exhaustion, or a ParserError. -/
inductive ScanOut where
  | line (lineno : Nat) (text : String) (lineno2 : Nat) (rest : List String)
  | stop (lineno : Nat)
  | err (lineno : Nat) (msg : String)
deriving DecidableEq

/-- The multiline-comment loop of `LineIterator._next`: keep reading
physical lines until one contains `*/`; text up to the close is dropped
and the remainder of that line is appended to the part before the `/*`.
Reaching end of input raises "missing end of multiline comment" with the
*current* line counter (the number of physical lines consumed), not the
comment's start line. -/
def scanComment (startLn : Nat) (acc : String) (n : Nat) :
    List String → ScanOut
  | [] => .err n "missing end of multiline comment"
  | l :: rest =>
      let s := pyRstrip (stripLineComment l)
      if isBlankLine s then scanComment startLn acc (n + 1) rest
      else
        match strFind s "*/" with
        | some j => .line startLn (acc ++ strDrop s (j + 2)) (n + 1) rest
        | none => scanComment startLn acc (n + 1) rest

/-- `LineIterator._next`: read one line; without `/*` yield it; with a
same-line `*/` splice the comment out; otherwise enter the multiline
loop. -/
def lineIterNext (n : Nat) (lines : List String) : ScanOut :=
  match readLine n lines with
  | none => .stop n
  | some (n2, s, rest) =>
      match strFind s "/*" with
      | none => .line n2 s n2 rest
      | some i =>
          let stripped := strTake s i
          match strFindFrom s "*/" i with
          | some j => .line n2 (stripped ++ strDrop s (j + 2)) n2 rest
          | none => scanComment n2 stripped n2 rest

/-- `Engine.evaluate`'s construction of the evaluation context.  The
method's `context` parameter (the override map of `convert`) is rebound to
a fresh empty dict by `context = {}` before the override-parsing loop
runs, so the loop iterates over nothing and the overrides are discarded;
`context.update(self._vars)` then installs the file's variable table into
the empty dict. -/
def engineBuildContext (ctxArg : List (String × String))
    (fileVars : Ctx) : Ctx :=
  let context : Ctx := []
  dictUpdate context fileVars

/-- C1: `Engine.evaluate` rebinds its `context` parameter to `{}` before
the override-parsing loop, so an override supplied to `convert`/`compile`
is never parsed or inserted: the built context equals the file's variable
table alone, and looking up an overridden name the file does not bind
raises "variable ... is not defined" instead of reflecting the override. -/
theorem c1_overrides_discarded :
    engineBuildContext [("x", "42px")] [] = [] ∧
    (∀ (ov : List (String × String)) (vars : Ctx),
      engineBuildContext ov vars = dictUpdate [] vars) ∧
    evalExpr 16 (engineBuildContext [("x", "42px")] []) (.var "x" (some 2)) =
      .error (.eval (some 2) "variable x is not defined") :=
  ⟨rfl, fun _ _ => rfl, rfl⟩

/-- C2 counterexample: with `a = $b + $a` and `b = $b`, requesting `a`
(which references itself transitively, through its right operand) raises
the circular-dependency error naming `b` — the first in-flight variable
re-encountered along the evaluation path — not the originally requested
variable `a`. -/
theorem c2_counterexample :
    evalExpr 16
      [("a", .add (.var "b" (some 2)) (.var "a" (some 2)) (some 2)),
       ("b", .var "b" (some 3))]
      (.var "a" (some 1)) =
      .error (.eval (some 2)
        "Circular variable dependencies detected when resolving b.") ∧
    "b" ≠ "a" :=
  ⟨rfl, by decide⟩

/-- C2 amended: looking up a variable whose context entry is the
`FailingVar` sentinel raises "Circular variable dependencies detected when
resolving ⟨name⟩." naming the sentinel's variable, and an absent
identifier raises "variable ⟨name⟩ is not defined"; the circular error
names the originally requested variable for a direct self-reference and
for a pure chain cycle returning to the requested variable, though not for
every transitive self-reference. -/
theorem c2_amended :
    evalExpr 16 [("n", .failingVar "n" (some 4))] (.var "n" (some 9)) =
      .error (.eval (some 4)
        "Circular variable dependencies detected when resolving n.") ∧
    evalExpr 16 [("a", .var "a" (some 2))] (.var "a" (some 1)) =
      .error (.eval (some 1)
        "Circular variable dependencies detected when resolving a.") ∧
    evalExpr 16 [("a", .var "b" (some 2)), ("b", .var "a" (some 3))]
      (.var "a" (some 1)) =
      .error (.eval (some 1)
        "Circular variable dependencies detected when resolving a.") ∧
    evalExpr 16 [] (.var "x" (some 5)) =
      .error (.eval (some 5) "variable x is not defined") :=
  ⟨rfl, rfl, rfl, rfl⟩

/-- C3 counterexample: `1cm + 12mm` evaluates to `22mm` — the result
carries the input unit with the *smaller* reference-unit magnitude, not
the larger one the claim states (`cm`). -/
theorem c3_counterexample :
    evalExpr 16 []
      (.add (.val 1 "cm" (some 1)) (.val 12 "mm" (some 2)) (some 1)) =
      .ok (.val 22 "mm" (some 1)) ∧
    "mm" ≠ "cm" :=
  ⟨by with_unfolding_all rfl, by decide⟩

/-- C3 amended: for two Values of one convertible family with different
units, both operands are expressed in whichever input unit has the smaller
reference factor and the result carries that unit (so `1cm + 12mm` is
`22mm`); in the branch where the left unit's factor is the smaller one the
operands are combined in reversed order (visible under subtraction);
incompatible or unconvertible unit pairs raise the evaluation error
"cannot ... because the two units are not compatible.". -/
theorem c3_amended : ∀ a b : ℚ,
    evalExpr 16 []
      (.add (.val a "cm" (some 1)) (.val b "mm" (some 2)) (some 1)) =
      .ok (.val (a / 1 * 10 + b) "mm" (some 1)) ∧
    evalExpr 16 []
      (.add (.val a "mm" (some 1)) (.val b "cm" (some 2)) (some 1)) =
      .ok (.val (b / 1 * 10 + a) "mm" (some 1)) ∧
    evalExpr 16 []
      (.sub (.val a "mm" (some 1)) (.val b "cm" (some 2)) (some 1)) =
      .ok (.val (b / 1 * 10 - a) "mm" (some 1)) ∧
    evalExpr 16 []
      (.add (.val a "em" (some 1)) (.val b "px" (some 2)) (some 1)) =
      .error (.eval (some 1)
        "cannot add em and px because the two units are not compatible.") ∧
    evalExpr 16 []
      (.add (.val a "cm" (some 1)) (.val b "s" (some 2)) (some 1)) =
      .error (.eval (some 1)
        "cannot add cm and s because the two units are not compatible.") :=
  fun _ _ => ⟨rfl, rfl, rfl, rfl, rfl⟩

/-- C4: `(5mm + 1cm) - 1cm` evaluates to `-5mm`, not a value numerically
equal to `5mm`: in the `Value._conv_calc` branch taken when the left
unit's factor is the smaller one, the operands reach the subtraction in
reversed order, so the code computes `B - A` instead of `A - B`. -/
theorem c4_sub_operands_reversed :
    evalExpr 16 []
      (.sub (.add (.val 5 "mm" (some 1)) (.val 1 "cm" (some 1)) (some 1))
            (.val 1 "cm" (some 1)) (some 1)) =
      .ok (.val (-5) "mm" (some 1)) ∧
    (-5 : ℚ) ≠ 5 :=
  ⟨by with_unfolding_all rfl, by norm_num⟩

/-- C5: dividing a Value by a zero Number (`10px / 0`) raises a Python
TypeError, not the EvalException the claim states: the ZeroDivisionError
handler in `Value.div` passes `lineno` both positionally and as a keyword
to `EvalException`.  `Number` division and both modulo paths do raise the
evaluation error "cannot divide by zero". -/
theorem c5_value_div_zero_typeerror :
    evalExpr 16 []
      (.div (.val 10 "px" (some 1)) (.num 0 (some 1)) (some 1)) =
      .error (.typeError
        "__init__() got multiple values for keyword argument 'lineno'") ∧
    evalExpr 16 [] (.div (.num 10 (some 3)) (.num 0 (some 3)) (some 3)) =
      .error (.eval (some 3) "cannot divide by zero") ∧
    evalExpr 16 [] (.mod (.val 10 "px" (some 4)) (.num 0 (some 4)) (some 4)) =
      .error (.eval (some 4) "cannot divide by zero") ∧
    evalExpr 16 [] (.mod (.num 10 (some 5)) (.num 0 (some 5)) (some 5)) =
      .error (.eval (some 5) "cannot divide by zero") :=
  ⟨rfl, rfl, rfl, rfl⟩

/-- C6 counterexample: with a *percent* amount the lightness is scaled,
so `Color("#000000").brighten(100%)` stays `#000000` (lightness 0 doubled
is 0) and `Color("#ffffff").darken(100%)` stays `#ffffff` (lightness 1
times 100% is 1) — not `#ffffff` and `#000000` as the claim states. -/
theorem c6_counterexample :
    evalExpr 16 []
      (.call (.color (0, 0, 0) false (some 1)) "brighten"
        [.val 100 "%" (some 1)] (some 1)) =
      .ok (.color (0, 0, 0) false none) ∧
    colorToString (0, 0, 0) false = "#000000" ∧
    evalExpr 16 []
      (.call (.color (255, 255, 255) false (some 1)) "darken"
        [.val 100 "%" (some 1)] (some 1)) =
      .ok (.color (255, 255, 255) false none) ∧
    colorToString (255, 255, 255) false = "#ffffff" ∧
    ("#000000" : String) ≠ "#ffffff" :=
  ⟨by with_unfolding_all rfl, by with_unfolding_all rfl,
   by with_unfolding_all rfl, by with_unfolding_all rfl, by decide⟩

/-- C6 amended: a percent amount multiplies HLS lightness (brighten by
`1 + p/100` clamped above at 1, darken by `p/100` clamped below at 0) and
a zero-percent amount returns the original Color object unchanged; the
spec's `#ffffff`/`#000000` outcomes arise from the *Number* amount `100`,
which shifts lightness by `±1`. -/
theorem c6_amended :
    evalExpr 16 []
      (.call (.color (0, 0, 0) false (some 1)) "brighten"
        [.num 100 (some 1)] (some 1)) =
      .ok (.color (255, 255, 255) false none) ∧
    evalExpr 16 []
      (.call (.color (255, 255, 255) false (some 1)) "darken"
        [.num 100 (some 1)] (some 1)) =
      .ok (.color (0, 0, 0) false none) ∧
    evalExpr 16 []
      (.call (.color (128, 128, 128) false (some 1)) "brighten"
        [.val 50 "%" (some 1)] (some 1)) =
      .ok (.color (192, 192, 192) false none) ∧
    evalExpr 16 []
      (.call (.color (255, 0, 0) false (some 1)) "darken"
        [.val 50 "%" (some 1)] (some 1)) =
      .ok (.color (128, 0, 0) false none) ∧
    evalExpr 16 []
      (.call (.color (12, 34, 56) true (some 7)) "brighten"
        [.val 0 "%" (some 2)] (some 2)) =
      .ok (.color (12, 34, 56) true (some 7)) ∧
    evalExpr 16 []
      (.call (.color (12, 34, 56) true (some 7)) "darken"
        [.val 0 "%" (some 2)] (some 2)) =
      .ok (.color (12, 34, 56) true (some 7)) :=
  ⟨by with_unfolding_all rfl, by with_unfolding_all rfl,
   by with_unfolding_all rfl, by with_unfolding_all rfl,
   by with_unfolding_all rfl, by with_unfolding_all rfl⟩

/-- C7 counterexample: the token sequence of `10 / 4 % 3` parses as
`10 / (4 % 3)` (which evaluates to 10), not as `(10 / 4) % 3` (which
would evaluate to 5/2) as the claim states. -/
theorem c7_counterexample :
    parseExpr 1 [.numberTok 10, .opTok "/", .numberTok 4, .opTok "%",
                 .numberTok 3] =
      .ok (.div (.num 10 (some 1))
        (.mod (.num 4 (some 1)) (.num 3 (some 1)) (some 1)) (some 1)) ∧
    evalExpr 16 []
      (.div (.num 10 (some 1))
        (.mod (.num 4 (some 1)) (.num 3 (some 1)) (some 1)) (some 1)) =
      .ok (.num 10 (some 1)) ∧
    evalExpr 16 []
      (.mod (.div (.num 10 (some 1)) (.num 4 (some 1)) (some 1))
        (.num 3 (some 1)) (some 1)) =
      .ok (.num (5/2) (some 1)) ∧
    (10 : ℚ) ≠ 5/2 :=
  ⟨by with_unfolding_all rfl, by with_unfolding_all rfl,
   by with_unfolding_all rfl, by norm_num⟩

/-- C7 amended: each binary operator has its own precedence level in the
chain add → sub → mul → div → mod → neg → primary, so within the claim's
"additive" and "multiplicative" groups the operator later in the chain
binds tighter: `a / b % c` parses as `a / (b % c)`, `a * b % c` as
`a * (b % c)`, `a + b - c` as `a + (b - c)`; unary negation still binds
tighter than every binary operator. -/
theorem c7_amended : ∀ a b c : ℚ,
    parseExpr 1 [.numberTok a, .opTok "/", .numberTok b, .opTok "%",
                 .numberTok c] =
      .ok (.div (.num a (some 1))
        (.mod (.num b (some 1)) (.num c (some 1)) (some 1)) (some 1)) ∧
    parseExpr 1 [.numberTok a, .opTok "*", .numberTok b, .opTok "%",
                 .numberTok c] =
      .ok (.mul (.num a (some 1))
        (.mod (.num b (some 1)) (.num c (some 1)) (some 1)) (some 1)) ∧
    parseExpr 1 [.numberTok a, .opTok "+", .numberTok b, .opTok "-",
                 .numberTok c] =
      .ok (.add (.num a (some 1))
        (.sub (.num b (some 1)) (.num c (some 1)) (some 1)) (some 1)) ∧
    parseExpr 1 [.opTok "-", .numberTok a, .opTok "*", .numberTok b] =
      .ok (.mul (.neg (.num a (some 1)) (some 1)) (.num b (some 1))
        (some 1)) :=
  fun _ _ _ =>
    ⟨by with_unfolding_all rfl, by with_unfolding_all rfl,
     by with_unfolding_all rfl, by with_unfolding_all rfl⟩

/-- C8 counterexample: for the source lines `a`, `/* foo`, `bar` the
block comment starts on physical line 2, but the "missing end of
multiline comment" error reports line 3 — the last physical line
consumed — not the comment's start line. -/
theorem c8_counterexample :
    lineIterNext 0 ["a", "/* foo", "bar"] =
      .line 1 "a" 1 ["/* foo", "bar"] ∧
    lineIterNext 1 ["/* foo", "bar"] =
      .err 3 "missing end of multiline comment" ∧
    (3 : Nat) ≠ 2 :=
  ⟨rfl, rfl, by decide⟩

/-- C8 amended: when the scanner reaches end of input inside an unclosed
block comment it raises "missing end of multiline comment", and the
reported line number is the count of all physical lines consumed (the
last line of the input), not the comment's start line. -/
theorem c8_amended : ∀ (startLn : Nat) (acc : String) (n : Nat)
    (lines : List String) (m : Nat) (msg : String),
    scanComment startLn acc n lines = .err m msg →
    msg = "missing end of multiline comment" ∧ m = n + lines.length := by
  intro startLn acc n lines
  induction lines generalizing acc n with
  | nil =>
      intro m msg h
      rw [scanComment] at h
      cases h
      exact ⟨rfl, rfl⟩
  | cons l rest ih =>
      intro m msg h
      rw [scanComment] at h
      by_cases hb : isBlankLine (pyRstrip (stripLineComment l)) = true
      · simp only [hb, if_true] at h
        obtain ⟨h1, h2⟩ := ih (acc) (n + 1) m msg h
        refine ⟨h1, ?_⟩
        simp only [List.length_cons]
        omega
      · simp only [hb, if_false] at h
        rcases hf : strFind (pyRstrip (stripLineComment l)) "*/" with _ | j
        · rw [hf] at h
          obtain ⟨h1, h2⟩ := ih (acc) (n + 1) m msg h
          refine ⟨h1, ?_⟩
          simp only [List.length_cons]
          omega
        · rw [hf] at h
          cases h

/-- Witness for the amended C8 theorem at a concrete unclosed comment. -/
theorem c8_amended_witness :
    scanComment 2 "" 2 ["bar"] = .err 3 "missing end of multiline comment" ∧
    ("missing end of multiline comment" = "missing end of multiline comment" ∧
      3 = 2 + List.length ["bar"]) :=
  ⟨rfl, c8_amended 2 "" 2 ["bar"] 3 "missing end of multiline comment" rfl⟩

/-- C9: an out-of-range channel in an `rgb()` construction hits the
undefined name `EvalError` in `RGB.evaluate`, so Python raises NameError —
not an evaluation error carrying a line number and message as the claim
states; an in-range construction does produce the Color. -/
theorem c9_rgb_out_of_range_nameerror :
    evalExpr 16 []
      (.rgb [.num 300 (some 1), .num 0 (some 1), .num 0 (some 1)]
        (some 1)) =
      .error (.nameError "global name 'EvalError' is not defined") ∧
    evalExpr 16 []
      (.rgb [.num 255 (some 1), .num 0 (some 1), .num 0 (some 1)]
        (some 1)) =
      .ok (.color (255, 0, 0) false (some 1)) :=
  ⟨rfl, rfl⟩

/-- C10: `Color.div` delegates to `Color._calc` with `operator.sub`
exactly as `Color.sub` does, so dividing a Color by a Color or a Number
returns the same channel-wise clamped subtraction as subtracting it. -/
theorem c10_color_div_is_sub : ∀ (f : Nat) (ctx : Ctx)
    (c c2 : ℤ × ℤ × ℤ) (fn fn2 : Bool) (ln ln2 : Option Nat) (n : ℚ),
    divE f ctx (.color c fn ln) (.color c2 fn2 ln2) =
      subE f ctx (.color c fn ln) (.color c2 fn2 ln2) ∧
    divE f ctx (.color c fn ln) (.num n ln2) =
      subE f ctx (.color c fn ln) (.num n ln2) ∧
    divE (f + 1) ctx (.color c fn ln) (.color c2 fn2 ln2) =
      .ok (colorCalc c ln (.color c2 fn2 ln2) (· - ·)) := by
  intro f ctx c c2 fn fn2 ln ln2 n
  cases f with
  | zero => exact ⟨rfl, rfl, rfl⟩
  | succ f => exact ⟨rfl, rfl, rfl⟩
